import Mathlib

/-!
Shallow embedding of the telemetry aggregation subsystem of the
DnDBlacklineOPS repository (src/lib/telemetryStore.ts and the telemetry
API route src/app/api/telemetry/route.ts), together with proofs that
settle the frozen claims about it.

JavaScript numbers are modelled as exact rationals (ℚ); `Math.sqrt` is
modelled as `Real.sqrt` (hence the standard-deviation projector lives in
`Option ℝ` and is noncomputable, exactly as real square roots are).
Mutable module state is modelled by explicit state passing: every
mutating operation takes the current `TelemetryState` and the value of
`Date.now()` (`now`) and returns the updated state.
-/

namespace Telemetry

/-- `DocumentType` from telemetryStore.ts. -/
inductive DocumentType where
  | acquisition
  | investor
deriving DecidableEq, Repr

/-- `CompileVariant` from telemetryStore.ts. -/
inductive CompileVariant where
  | initial
  | recompile
deriving DecidableEq, Repr

/-- `ContractStatus` from telemetryStore.ts. -/
inductive ContractStatus where
  | success
  | failure
deriving DecidableEq, Repr

/-- `ActivityKind` from telemetryStore.ts. -/
inductive ActivityKind where
  | contract
  | compile
deriving DecidableEq, Repr

/-- Source tag of an error-log entry (the `"contract" | "pdf"` union). -/
inductive ErrorSource where
  | contract
  | pdf
deriving DecidableEq, Repr

/-- The `lastContract` record of the store. -/
structure ContractLog where
  property : String
  status : ContractStatus
  timestamp : ℚ
  durationMs : Option ℚ
deriving DecidableEq, Repr

/-- One entry of `recentActivity`. -/
structure ActivityEntry where
  kind : ActivityKind
  property : String
  status : ContractStatus
  timestamp : ℚ
  durationMs : Option ℚ := none
  docType : Option DocumentType := none
  detail : Option String := none
  variant : Option CompileVariant := none
deriving DecidableEq, Repr

/-- One entry of `recentErrors`. -/
structure ErrorEntry where
  source : ErrorSource
  message : String
  timestamp : ℚ
deriving DecidableEq, Repr

/-- The `TelemetryEvent` tagged union, one constructor per `type` tag.
Optional fields of the TypeScript type are `Option`s. -/
inductive TelemetryEvent where
  | contract_attempt (property : String) (timestamp : ℚ)
  | contract_success (property : String) (durationMs : ℚ) (timestamp : ℚ)
  | contract_failure (property : Option String) (reason : Option String) (timestamp : ℚ)
  | pdf_compiled (property : String) (docType : DocumentType) (durationMs : ℚ)
      (timestamp : ℚ) (variant : Option CompileVariant)
  | pdf_compile_failure (property : Option String) (docType : Option DocumentType)
      (reason : Option String) (timestamp : ℚ) (variant : Option CompileVariant)
  | pdf_cached (property : String) (cacheSize : ℚ) (timestamp : ℚ)
  | pdf_cache_cleared (count : ℚ) (timestamp : ℚ)
  | pdf_downloaded (property : String) (docType : DocumentType) (timestamp : ℚ)
deriving DecidableEq, Repr

/-- `MAX_RECENT_ACTIVITY` constant. -/
def MAX_RECENT_ACTIVITY : Nat := 16

/-- `MAX_DURATION_SAMPLES` constant. -/
def MAX_DURATION_SAMPLES : Nat := 50

/-- `MAX_ERROR_LOG` constant. -/
def MAX_ERROR_LOG : Nat := 10

/-- The module-level mutable `state` object, as an explicit state record. -/
structure TelemetryState where
  contractAttempts : Nat
  contractSuccesses : Nat
  contractFailures : Nat
  contractDurations : List ℚ
  pdfCompilations : Nat
  pdfCompilationFailures : Nat
  pdfDurations : List ℚ
  pdfDownloads : Nat
  pdfCacheEntries : ℚ
  lastCacheClearAt : Option ℚ
  lastContract : Option ContractLog
  recentActivity : List ActivityEntry
  recentErrors : List ErrorEntry
  lastUpdated : ℚ
deriving DecidableEq, Repr

/-- The initial store value (all counters zero, all buffers empty,
`lastUpdated` initialised from `Date.now()`). -/
def initialState (now : ℚ) : TelemetryState where
  contractAttempts := 0
  contractSuccesses := 0
  contractFailures := 0
  contractDurations := []
  pdfCompilations := 0
  pdfCompilationFailures := 0
  pdfDurations := []
  pdfDownloads := 0
  pdfCacheEntries := 0
  lastCacheClearAt := none
  lastContract := none
  recentActivity := []
  recentErrors := []
  lastUpdated := now

/-- `pushSample`: append the sample, then drop the oldest element when the
buffer has grown beyond `MAX_DURATION_SAMPLES` (JS `push` then `shift`). -/
def pushSample (buffer : List ℚ) (sample : ℚ) : List ℚ :=
  let pushed := buffer ++ [sample]
  if MAX_DURATION_SAMPLES < pushed.length then pushed.tail else pushed

/-- `calculateAverage`: `null` on an empty list, otherwise the reduce-sum
divided by the length. -/
def calculateAverage (values : List ℚ) : Option ℚ :=
  if values.length = 0 then none
  else some (values.foldl (fun acc current => acc + current) 0 / (values.length : ℚ))

/-- `calculateStdDev`: `null` below two samples, otherwise the square root
of the Bessel-corrected variance computed from `calculateAverage`. -/
noncomputable def calculateStdDev (values : List ℚ) : Option ℝ :=
  if values.length < 2 then none
  else
    match calculateAverage values with
    | none => none
    | some average =>
        some (Real.sqrt
          (((values.foldl (fun acc current => acc + (current - average) ^ 2) 0 /
              ((values.length : ℚ) - 1) : ℚ) : ℝ)))

/-- `addRecentActivity`: prepend the entry and truncate to capacity. -/
def addRecentActivity (s : TelemetryState) (entry : ActivityEntry) : TelemetryState :=
  { s with recentActivity := (entry :: s.recentActivity).take MAX_RECENT_ACTIVITY }

/-- `addErrorLog`: prepend the entry and truncate to capacity. -/
def addErrorLog (s : TelemetryState) (error : ErrorEntry) : TelemetryState :=
  { s with recentErrors := (error :: s.recentErrors).take MAX_ERROR_LOG }

/-- `clearTelemetryErrors`: returns the number of cleared entries and the
state with an empty error log and refreshed `lastUpdated`. -/
def clearTelemetryErrors (s : TelemetryState) (now : ℚ) : Nat × TelemetryState :=
  (s.recentErrors.length, { s with recentErrors := [], lastUpdated := now })

/-- The `contract_failure` error-log message: the ternary
`event.reason ? (property or "Contract") + ": " + reason
              : (property or "Contract") + " failed."`.
JS truthiness makes an empty-string reason take the fallback branch. -/
def contractFailureMessage (property reason : Option String) : String :=
  match reason with
  | some r =>
      if r = "" then property.getD "Contract" ++ " failed."
      else property.getD "Contract" ++ ": " ++ r
  | none => property.getD "Contract" ++ " failed."

/-- `docType.toUpperCase()` on the two document types. -/
def docTypeUpper : DocumentType → String
  | .acquisition => "ACQUISITION"
  | .investor => "INVESTOR"

/-- The `context` array of the `pdf_compile_failure` branch: the property
when truthy (present and nonempty), then `"PDF <DOCTYPE>"` when the
docType is present, then `"Recompile"` when the variant is recompile. -/
def compileFailureContext (property : Option String) (docType : Option DocumentType)
    (variant : Option CompileVariant) : List String :=
  (match property with
   | some p => if p = "" then [] else [p]
   | none => []) ++
  (match docType with
   | some d => ["PDF " ++ docTypeUpper d]
   | none => []) ++
  (if variant = some CompileVariant.recompile then ["Recompile"] else [])

/-- The `scope` label: `context.join(" / ")`, or `"PDF"` when empty. -/
def compileFailureScope (property : Option String) (docType : Option DocumentType)
    (variant : Option CompileVariant) : String :=
  let context := compileFailureContext property docType variant
  if context.isEmpty then "PDF" else String.intercalate " / " context

/-- The `pdf_compile_failure` error-log message: `"<scope>: <reason>"` for a
truthy reason, otherwise `"<scope>: compile failure."`, with
`" (Recompile)"` appended when the variant is recompile. -/
def compileFailureMessage (property : Option String) (docType : Option DocumentType)
    (reason : Option String) (variant : Option CompileVariant) : String :=
  let scope := compileFailureScope property docType variant
  let reasonDetail :=
    match reason with
    | some r => if r = "" then scope ++ ": compile failure." else scope ++ ": " ++ r
    | none => scope ++ ": compile failure."
  if variant = some CompileVariant.recompile then reasonDetail ++ " (Recompile)"
  else reasonDetail

/-- The `detail` field of the `pdf_compile_failure` activity entry. -/
def compileFailureActivityDetail (reason : Option String)
    (variant : Option CompileVariant) : Option String :=
  if variant = some CompileVariant.recompile then
    some (match reason with
      | some r => if r = "" then "Recompile attempt failed." else "Recompile Â· " ++ r
      | none => "Recompile attempt failed.")
  else reason

/-- `recordTelemetryEvent`: sets `lastUpdated` to `Date.now()` and applies
the per-kind update rules of the switch statement. -/
def recordTelemetryEvent (event : TelemetryEvent) (s : TelemetryState)
    (now : ℚ) : TelemetryState :=
  let s0 := { s with lastUpdated := now }
  match event with
  | .contract_attempt _property _timestamp =>
      { s0 with contractAttempts := s0.contractAttempts + 1 }
  | .contract_success property durationMs timestamp =>
      let s1 := { s0 with
        contractSuccesses := s0.contractSuccesses + 1,
        contractDurations := pushSample s0.contractDurations durationMs }
      let contractLog : ContractLog :=
        { property := property, status := .success,
          timestamp := timestamp, durationMs := some durationMs }
      let s2 := { s1 with lastContract := some contractLog }
      addRecentActivity s2
        { kind := .contract, property := contractLog.property, status := .success,
          timestamp := timestamp, durationMs := some durationMs }
  | .contract_failure property reason timestamp =>
      let s1 := { s0 with contractFailures := s0.contractFailures + 1 }
      let prop := property.getD "Unspecified"
      let failureLog : ContractLog :=
        { property := prop, status := .failure,
          timestamp := timestamp, durationMs := none }
      let s2 := { s1 with lastContract := some failureLog }
      let s3 := addRecentActivity s2
        { kind := .contract, property := prop, status := .failure,
          timestamp := timestamp, detail := reason }
      addErrorLog s3
        { source := .contract, message := contractFailureMessage property reason,
          timestamp := timestamp }
  | .pdf_compiled property docType durationMs timestamp variant =>
      let s1 := { s0 with
        pdfCompilations := s0.pdfCompilations + 1,
        pdfDurations := pushSample s0.pdfDurations durationMs }
      addRecentActivity s1
        { kind := .compile, property := property, status := .success,
          timestamp := timestamp, durationMs := some durationMs,
          docType := some docType, variant := variant,
          detail := if variant = some CompileVariant.recompile
                    then some "Recompiled" else none }
  | .pdf_compile_failure property docType reason timestamp variant =>
      let s1 := { s0 with pdfCompilationFailures := s0.pdfCompilationFailures + 1 }
      let s2 := addErrorLog s1
        { source := .pdf, message := compileFailureMessage property docType reason variant,
          timestamp := timestamp }
      addRecentActivity s2
        { kind := .compile, property := property.getD "Unspecified", status := .failure,
          timestamp := timestamp, docType := docType,
          detail := compileFailureActivityDetail reason variant, variant := variant }
  | .pdf_cached _property cacheSize _timestamp =>
      { s0 with pdfCacheEntries := max 0 cacheSize }
  | .pdf_cache_cleared _count timestamp =>
      { s0 with pdfCacheEntries := 0, lastCacheClearAt := some timestamp }
  | .pdf_downloaded _property _docType _timestamp =>
      { s0 with pdfDownloads := s0.pdfDownloads + 1 }

/-- Fold a list of events through `recordTelemetryEvent` (consecutive calls
on the store), all observed at the same clock reading `now`. -/
def applyEvents (events : List TelemetryEvent) (s : TelemetryState)
    (now : ℚ) : TelemetryState :=
  events.foldl (fun acc e => recordTelemetryEvent e acc now) s

/-- The `totals` block of a summary. -/
structure SummaryTotals where
  contractAttempts : Nat
  contractSuccesses : Nat
  contractFailures : Nat
  pdfCompilations : Nat
  pdfCompilationFailures : Nat
  pdfDownloads : Nat
deriving DecidableEq, Repr

/-- The `metrics` block of a summary. -/
structure SummaryMetrics where
  contractAverageMs : Option ℚ
  pdfAverageMs : Option ℚ
  pdfNetJitterMs : Option ℝ
  contractSuccessRate : Option ℚ
  pdfSuccessRate : Option ℚ

/-- The `cache` block of a summary. -/
structure SummaryCache where
  entries : ℚ
  lastClearAt : Option ℚ
deriving DecidableEq, Repr

/-- The value returned by `getTelemetrySummary`. -/
structure TelemetrySummary where
  totals : SummaryTotals
  metrics : SummaryMetrics
  cache : SummaryCache
  lastContract : Option ContractLog
  recentActivity : List ActivityEntry
  recentErrors : List ErrorEntry
  lastUpdated : ℚ

/-- `getTelemetrySummary`: the pure projection of the store. -/
noncomputable def getTelemetrySummary (s : TelemetryState) : TelemetrySummary where
  totals :=
    { contractAttempts := s.contractAttempts
      contractSuccesses := s.contractSuccesses
      contractFailures := s.contractFailures
      pdfCompilations := s.pdfCompilations
      pdfCompilationFailures := s.pdfCompilationFailures
      pdfDownloads := s.pdfDownloads }
  metrics :=
    { contractAverageMs := calculateAverage s.contractDurations
      pdfAverageMs := calculateAverage s.pdfDurations
      pdfNetJitterMs := calculateStdDev s.pdfDurations
      contractSuccessRate :=
        if 0 < s.contractAttempts then
          some ((s.contractSuccesses : ℚ) / (s.contractAttempts : ℚ))
        else none
      pdfSuccessRate :=
        if 0 < s.pdfCompilations + s.pdfCompilationFailures then
          some ((s.pdfCompilations : ℚ) /
            ((s.pdfCompilations : ℚ) + (s.pdfCompilationFailures : ℚ)))
        else none }
  cache := { entries := s.pdfCacheEntries, lastClearAt := s.lastCacheClearAt }
  lastContract := s.lastContract
  recentActivity := s.recentActivity
  recentErrors := s.recentErrors
  lastUpdated := s.lastUpdated

/-! ### The decoded-JSON payload model and the event validator -/

/-- A decoded JSON payload, as handed to `isTelemetryEvent` by the route. -/
inductive JsonValue where
  | null
  | bool (b : Bool)
  | num (value : ℚ)
  | str (value : String)
  | arr (items : List JsonValue)
  | obj (fields : List (String × JsonValue))

/-- `isObject`: JS `typeof value === "object" && value !== null` (arrays are
objects in JS). -/
def isObject : JsonValue → Bool
  | .arr _ => true
  | .obj _ => true
  | _ => false

/-- Property access `value.key` on a decoded payload; `none` models the JS
`undefined` of a missing key. -/
def getField : JsonValue → String → Option JsonValue
  | .obj fields, key => fields.lookup key
  | _, _ => none

/-- `typeof value.key === "string"` on a possibly-missing field. -/
def jIsString : Option JsonValue → Bool
  | some (.str _) => true
  | _ => false

/-- `typeof value.key === "number"` on a possibly-missing field. -/
def jIsNumber : Option JsonValue → Bool
  | some (.num _) => true
  | _ => false

/-- `isDocumentType`: the value is exactly `"acquisition"` or `"investor"`
(`undefined` and every non-string fail). -/
def isDocumentType : Option JsonValue → Bool
  | some (.str s) => s == "acquisition" || s == "investor"
  | _ => false

/-- The string carried by the `type` field, when it is a string. -/
def jAsString : Option JsonValue → Option String
  | some (.str s) => some s
  | _ => none

/-- The rational carried by a numeric field, when it is a number. -/
def jAsNumber : Option JsonValue → Option ℚ
  | some (.num q) => some q
  | _ => none

/-- The switch body of `isTelemetryEvent`, one clause per `type` tag,
translated clause by clause; the default case of the switch is the final
`false`. -/
def kindCheck (value : JsonValue) (t : String) : Bool :=
  if t = "contract_attempt" then jIsString (getField value "property")
  else if t = "contract_success" then
    jIsString (getField value "property") && jIsNumber (getField value "durationMs")
  else if t = "contract_failure" then
    (getField value "property").isNone || jIsString (getField value "property")
  else if t = "pdf_compiled" then
    jIsString (getField value "property") && isDocumentType (getField value "docType") &&
      jIsNumber (getField value "durationMs")
  else if t = "pdf_compile_failure" then
    ((getField value "property").isNone || jIsString (getField value "property")) &&
      ((getField value "docType").isNone || isDocumentType (getField value "docType"))
  else if t = "pdf_cached" then
    jIsString (getField value "property") && jIsNumber (getField value "cacheSize")
  else if t = "pdf_cache_cleared" then jIsNumber (getField value "count")
  else if t = "pdf_downloaded" then
    jIsString (getField value "property") && isDocumentType (getField value "docType")
  else false

/-- `isTelemetryEvent`: the guard on object shape, string `type` and numeric
`timestamp`, then the switch on `value.type` (the guard ensures the `type`
field is a string, so the default string is never the compared value). -/
def isTelemetryEvent (value : JsonValue) : Bool :=
  if !isObject value || !jIsString (getField value "type") ||
      !jIsNumber (getField value "timestamp") then
    false
  else
    kindCheck value ((jAsString (getField value "type")).getD "")

/-- An optional field that, per the spec wording, must be absent or a string. -/
def jOptionalString (o : Option JsonValue) : Bool :=
  o.isNone || jIsString o

/-- An optional field that, per the spec wording, must be absent or a valid
document type. -/
def jOptionalDocumentType (o : Option JsonValue) : Bool :=
  o.isNone || isDocumentType o

/-- An optional field that, per the spec wording, must be absent or a valid
compile variant. -/
def jOptionalVariant (o : Option JsonValue) : Bool :=
  match o with
  | none => true
  | some (.str s) => s == "initial" || s == "recompile"
  | _ => false

/-- Validator following the words of the spec (claim C4 as stated): optional
fields — `property` on `contract_failure`, `reason`, and `docType`/`variant`
on failure events — may be absent, but when present must have the correct
type. Written for comparison with the source validator `isTelemetryEvent`,
which does not type-check `reason` or `variant`. -/
def kindCheckSpec (value : JsonValue) (t : String) : Bool :=
  if t = "contract_attempt" then jIsString (getField value "property")
  else if t = "contract_success" then
    jIsString (getField value "property") && jIsNumber (getField value "durationMs")
  else if t = "contract_failure" then
    jOptionalString (getField value "property") &&
      jOptionalString (getField value "reason")
  else if t = "pdf_compiled" then
    jIsString (getField value "property") && isDocumentType (getField value "docType") &&
      jIsNumber (getField value "durationMs") &&
      jOptionalVariant (getField value "variant")
  else if t = "pdf_compile_failure" then
    jOptionalString (getField value "property") &&
      jOptionalDocumentType (getField value "docType") &&
      jOptionalString (getField value "reason") &&
      jOptionalVariant (getField value "variant")
  else if t = "pdf_cached" then
    jIsString (getField value "property") && jIsNumber (getField value "cacheSize")
  else if t = "pdf_cache_cleared" then jIsNumber (getField value "count")
  else if t = "pdf_downloaded" then
    jIsString (getField value "property") && isDocumentType (getField value "docType")
  else false

/-- The guard plus the spec-worded switch. -/
def isTelemetryEventSpec (value : JsonValue) : Bool :=
  if !isObject value || !jIsString (getField value "type") ||
      !jIsNumber (getField value "timestamp") then
    false
  else
    kindCheckSpec value ((jAsString (getField value "type")).getD "")

/-- Decode of a document-type string field. -/
def decodeDocType (o : Option JsonValue) : Option DocumentType :=
  match o with
  | some (.str s) =>
      if s = "acquisition" then some .acquisition
      else if s = "investor" then some .investor
      else none
  | _ => none

/-- Decode of a compile-variant string field. -/
def decodeVariant (o : Option JsonValue) : Option CompileVariant :=
  match o with
  | some (.str s) =>
      if s = "initial" then some .initial
      else if s = "recompile" then some .recompile
      else none
  | _ => none

/-- Interprets a payload as a typed `TelemetryEvent`.  The route performs an
unchecked TypeScript cast after the validator accepts; this decoder is exact
on validator-accepted payloads whose optional fields are well typed, and
falls back to defaults elsewhere (a path no theorem below exercises). -/
def decodeEvent (v : JsonValue) : TelemetryEvent :=
  let strF := fun k => jAsString (getField v k)
  let numF := fun k => jAsNumber (getField v k)
  let ts := (numF "timestamp").getD 0
  match jAsString (getField v "type") with
  | some "contract_attempt" => .contract_attempt ((strF "property").getD "") ts
  | some "contract_success" =>
      .contract_success ((strF "property").getD "") ((numF "durationMs").getD 0) ts
  | some "contract_failure" => .contract_failure (strF "property") (strF "reason") ts
  | some "pdf_compiled" =>
      .pdf_compiled ((strF "property").getD "")
        ((decodeDocType (getField v "docType")).getD .acquisition)
        ((numF "durationMs").getD 0) ts (decodeVariant (getField v "variant"))
  | some "pdf_compile_failure" =>
      .pdf_compile_failure (strF "property") (decodeDocType (getField v "docType"))
        (strF "reason") ts (decodeVariant (getField v "variant"))
  | some "pdf_cached" =>
      .pdf_cached ((strF "property").getD "") ((numF "cacheSize").getD 0) ts
  | some "pdf_cache_cleared" => .pdf_cache_cleared ((numF "count").getD 0) ts
  | some "pdf_downloaded" =>
      .pdf_downloaded ((strF "property").getD "")
        ((decodeDocType (getField v "docType")).getD .acquisition) ts
  | _ => .contract_attempt "" ts

/-- Outcome of the ingestion endpoint: HTTP 200 acknowledgement or the
HTTP 400 client-error rejection. -/
inductive PostResult where
  | accepted
  | rejected
deriving DecidableEq, Repr

/-- The `POST` handler of the telemetry route on an already-decoded JSON
body: validate, then either record the event or reject without touching
the store. -/
def POST (payload : JsonValue) (s : TelemetryState) (now : ℚ) :
    PostResult × TelemetryState :=
  if isTelemetryEvent payload then
    (.accepted, recordTelemetryEvent (decodeEvent payload) s now)
  else
    (.rejected, s)

/-! ### Helper lemmas about the duration sample buffers -/

/-- On a buffer within capacity, `pushSample` appends and drops the overflow
prefix (which is one element exactly when the buffer was full). -/
theorem pushSample_eq_drop (b : List ℚ) (x : ℚ) (h : b.length ≤ MAX_DURATION_SAMPLES) :
    pushSample b x = (b ++ [x]).drop (b.length + 1 - MAX_DURATION_SAMPLES) := by
  simp only [pushSample, MAX_DURATION_SAMPLES, List.length_append,
    List.length_singleton] at *
  split_ifs with hlt
  · have h1 : b.length + 1 - 50 = 1 := by omega
    rw [h1, List.drop_one]
  · have h0 : b.length + 1 - 50 = 0 := by omega
    rw [h0, List.drop_zero]

/-- `pushSample` keeps the buffer within capacity. -/
theorem pushSample_length_le (b : List ℚ) (x : ℚ) (h : b.length ≤ MAX_DURATION_SAMPLES) :
    (pushSample b x).length ≤ MAX_DURATION_SAMPLES := by
  rw [pushSample_eq_drop b x h]
  simp only [List.length_drop, List.length_append, List.length_singleton,
    MAX_DURATION_SAMPLES] at *
  omega

/-- Folding a sample sequence through `pushSample` keeps exactly the newest
window: the result is the concatenation with everything but the last
`MAX_DURATION_SAMPLES` elements dropped from the front. -/
theorem foldl_pushSample_drop (xs : List ℚ) :
    ∀ b : List ℚ, b.length ≤ MAX_DURATION_SAMPLES →
      xs.foldl pushSample b =
        (b ++ xs).drop (b.length + xs.length - MAX_DURATION_SAMPLES) := by
  induction xs with
  | nil =>
      intro b h
      simp only [List.foldl_nil, List.append_nil, List.length_nil, Nat.add_zero]
      rw [Nat.sub_eq_zero_of_le h, List.drop_zero]
  | cons x xs ih =>
      intro b h
      have hb1 : (b ++ [x]).length = b.length + 1 := by simp
      have hle : b.length + 1 - MAX_DURATION_SAMPLES ≤ (b ++ [x]).length := by
        rw [hb1]; omega
      rw [List.foldl_cons, ih (pushSample b x) (pushSample_length_le b x h),
        pushSample_eq_drop b x h, List.length_drop, hb1,
        ← List.drop_append_of_le_length hle, List.drop_drop]
      have hEq : (b ++ [x]) ++ xs = b ++ x :: xs := by simp
      rw [hEq]
      congr 1
      simp only [List.length_cons, MAX_DURATION_SAMPLES] at h ⊢
      omega

/-- The contract duration buffer after a run of `contract_success` events is
the fold of their durations through `pushSample`. -/
theorem contractDurations_applyEvents (ds : List ℚ) (p : String) (t now : ℚ) :
    ∀ s : TelemetryState,
      (applyEvents (ds.map fun d => .contract_success p d t) s now).contractDurations =
        ds.foldl pushSample s.contractDurations := by
  induction ds with
  | nil => intro s; simp [applyEvents]
  | cons d ds ih =>
      intro s
      simp only [List.map_cons, applyEvents, List.foldl_cons] at *
      rw [ih]
      rfl

/-- The PDF duration buffer after a run of `pdf_compiled` events is the fold
of their durations through `pushSample`. -/
theorem pdfDurations_applyEvents (ds : List ℚ) (p : String) (dt : DocumentType)
    (t now : ℚ) :
    ∀ s : TelemetryState,
      (applyEvents (ds.map fun d => .pdf_compiled p dt d t none) s now).pdfDurations =
        ds.foldl pushSample s.pdfDurations := by
  induction ds with
  | nil => intro s; simp [applyEvents]
  | cons d ds ih =>
      intro s
      simp only [List.map_cons, applyEvents, List.foldl_cons] at *
      rw [ih]
      rfl

/-- C1. The duration sample buffers are bounded FIFO with capacity 50: after
any sequence of `contract_success` (resp. `pdf_compiled`) events recorded
from the initial store, the contract (resp. PDF) duration buffer holds
exactly the pushed durations with all but the last `MAX_DURATION_SAMPLES`
dropped from the front — so insertion order is preserved, the oldest samples
are evicted first, the length never exceeds 50, and after 60 pushes exactly
the last 50 remain. -/
theorem duration_buffers_fifo_capacity (ds : List ℚ) (p : String)
    (dt : DocumentType) (t now : ℚ) :
    ((applyEvents (ds.map fun d => .contract_success p d t)
        (initialState now) now).contractDurations =
      ds.drop (ds.length - MAX_DURATION_SAMPLES)) ∧
    ((applyEvents (ds.map fun d => .contract_success p d t)
        (initialState now) now).contractDurations.length ≤ MAX_DURATION_SAMPLES) ∧
    ((applyEvents (ds.map fun d => .pdf_compiled p dt d t none)
        (initialState now) now).pdfDurations =
      ds.drop (ds.length - MAX_DURATION_SAMPLES)) ∧
    ((applyEvents (ds.map fun d => .pdf_compiled p dt d t none)
        (initialState now) now).pdfDurations.length ≤ MAX_DURATION_SAMPLES) := by
  have hfold : List.foldl pushSample [] ds =
      ds.drop (ds.length - MAX_DURATION_SAMPLES) := by
    rw [foldl_pushSample_drop ds [] (by simp [MAX_DURATION_SAMPLES])]
    simp
  have hc := contractDurations_applyEvents ds p t now (initialState now)
  have hp := pdfDurations_applyEvents ds p dt t now (initialState now)
  have hcinit : (initialState now).contractDurations = [] := rfl
  have hpinit : (initialState now).pdfDurations = [] := rfl
  rw [hcinit, hfold] at hc
  rw [hpinit, hfold] at hp
  refine ⟨hc, ?_, hp, ?_⟩
  · rw [hc]; simp only [List.length_drop]; omega
  · rw [hp]; simp only [List.length_drop]; omega

/-! ### Helper lemmas and spec-side statistics for the summary metrics -/

/-- A left fold of addition is the sum. -/
theorem foldl_add_eq (l : List ℚ) (a : ℚ) :
    l.foldl (fun acc current => acc + current) a = a + l.sum := by
  induction l generalizing a with
  | nil => simp
  | cons x xs ih => simp [ih]; ring

/-- A left fold accumulating `f` of each element is the sum of the mapped
list. -/
theorem foldl_add_map_eq (f : ℚ → ℚ) (l : List ℚ) (a : ℚ) :
    l.foldl (fun acc current => acc + f current) a = a + (l.map f).sum := by
  induction l generalizing a with
  | nil => simp
  | cons x xs ih => simp [ih]; ring

/-- Arithmetic mean, following the spec's words: sum over length, `none` on
an empty list. -/
def meanSpec (values : List ℚ) : Option ℚ :=
  if values = [] then none else some (values.sum / (values.length : ℚ))

/-- Bessel-corrected sample standard deviation, following the spec's words:
the square root of the sum of squared deviations from the mean divided by
`n - 1`; `none` below two samples. -/
noncomputable def sampleStdDevSpec (values : List ℚ) : Option ℝ :=
  if values.length < 2 then none
  else
    some (Real.sqrt
      ((((values.map fun x => (x - values.sum / (values.length : ℚ)) ^ 2).sum /
          ((values.length : ℚ) - 1) : ℚ) : ℝ)))

/-- The reduce-based average of the source equals the spec's arithmetic
mean. -/
theorem calculateAverage_eq_meanSpec (values : List ℚ) :
    calculateAverage values = meanSpec values := by
  simp only [calculateAverage, meanSpec, List.length_eq_zero, foldl_add_eq, zero_add]

/-- The reduce-based standard deviation of the source equals the spec's
Bessel-corrected sample standard deviation. -/
theorem calculateStdDev_eq_sampleStdDevSpec (values : List ℚ) :
    calculateStdDev values = sampleStdDevSpec values := by
  unfold calculateStdDev sampleStdDevSpec
  by_cases h2 : values.length < 2
  · simp [h2]
  · have hne : values ≠ [] := by
      intro h
      rw [h] at h2
      simp at h2
    rw [if_neg h2, if_neg h2, calculateAverage_eq_meanSpec]
    simp only [meanSpec, if_neg hne, foldl_add_map_eq, zero_add]

/-- Evaluation of the source average on the spec's example samples. -/
theorem calculateAverage_example : calculateAverage [100, 200, 300] = some 200 := by
  norm_num [calculateAverage, List.foldl]

/-- Evaluation of the source standard deviation on the spec's example
samples. -/
theorem calculateStdDev_example : calculateStdDev [100, 200, 300] = some (100 : ℝ) := by
  rw [calculateStdDev_eq_sampleStdDevSpec]
  unfold sampleStdDevSpec
  rw [if_neg (by norm_num)]
  norm_num
  rw [show (10000 : ℝ) = (100 : ℝ) ^ 2 by norm_num,
    Real.sqrt_sq (by norm_num : (0 : ℝ) ≤ 100)]

/-- C2. `getTelemetrySummary` computes `contractAverageMs` and
`pdfAverageMs` as the exact arithmetic mean of the corresponding duration
buffer (`none` when empty), and `pdfNetJitterMs` as the Bessel-corrected
sample standard deviation of the PDF duration buffer (`none` below two
samples); on the samples 100, 200, 300 the average is 200 and the jitter
is 100. -/
theorem summary_mean_and_jitter (s : TelemetryState) :
    (getTelemetrySummary s).metrics.contractAverageMs = meanSpec s.contractDurations ∧
    (getTelemetrySummary s).metrics.pdfAverageMs = meanSpec s.pdfDurations ∧
    (getTelemetrySummary s).metrics.pdfNetJitterMs = sampleStdDevSpec s.pdfDurations ∧
    calculateAverage [100, 200, 300] = some 200 ∧
    calculateStdDev [100, 200, 300] = some (100 : ℝ) :=
  ⟨calculateAverage_eq_meanSpec s.contractDurations,
   calculateAverage_eq_meanSpec s.pdfDurations,
   calculateStdDev_eq_sampleStdDevSpec s.pdfDurations,
   calculateAverage_example,
   calculateStdDev_example⟩

/-! ### Success rates, cache gauge, counters, and per-event updates -/

/-- C3. `getTelemetrySummary` returns `contractSuccessRate` as
successes/attempts when attempts are positive and `none` otherwise, and
`pdfSuccessRate` as compilations/(compilations+failures) when that sum is
positive and `none` otherwise; on the initial store both rates are `none`,
not zero. -/
theorem summary_success_rates (s : TelemetryState) :
    ((getTelemetrySummary s).metrics.contractSuccessRate =
      if 0 < s.contractAttempts then
        some ((s.contractSuccesses : ℚ) / (s.contractAttempts : ℚ))
      else none) ∧
    ((getTelemetrySummary s).metrics.pdfSuccessRate =
      if 0 < s.pdfCompilations + s.pdfCompilationFailures then
        some ((s.pdfCompilations : ℚ) /
          ((s.pdfCompilations : ℚ) + (s.pdfCompilationFailures : ℚ)))
      else none) ∧
    (getTelemetrySummary (initialState 0)).metrics.contractSuccessRate = none ∧
    (getTelemetrySummary (initialState 0)).metrics.pdfSuccessRate = none := by
  refine ⟨rfl, rfl, ?_, ?_⟩ <;> simp [getTelemetrySummary, initialState]

/-- Every single event application keeps the cache gauge nonnegative. -/
theorem record_cacheEntries_nonneg (e : TelemetryEvent) (s : TelemetryState)
    (now : ℚ) (h : 0 ≤ s.pdfCacheEntries) :
    0 ≤ (recordTelemetryEvent e s now).pdfCacheEntries := by
  cases e <;>
    simp [recordTelemetryEvent, addRecentActivity, addErrorLog, h, le_max_iff]

/-- Folding any event sequence keeps the cache gauge nonnegative. -/
theorem applyEvents_cacheEntries_nonneg (es : List TelemetryEvent) (now : ℚ) :
    ∀ s : TelemetryState, 0 ≤ s.pdfCacheEntries →
      0 ≤ (applyEvents es s now).pdfCacheEntries := by
  induction es with
  | nil => intro s h; exact h
  | cons e es ih =>
      intro s h
      exact ih (recordTelemetryEvent e s now) (record_cacheEntries_nonneg e s now h)

/-- C7. `pdf_cached` overwrites the gauge with `max 0 cacheSize`,
`pdf_cache_cleared` zeroes it and stamps `lastCacheClearAt`, the gauge is
nonnegative along every event sequence from the initial store, and a
`pdf_cached` with size 5 followed by one with size 3 leaves the gauge
at 3. -/
theorem cache_gauge_overwrite (p q : String) (c t u : ℚ) (s : TelemetryState)
    (now later : ℚ) (es : List TelemetryEvent) :
    ((recordTelemetryEvent (.pdf_cached p c t) s now).pdfCacheEntries = max 0 c) ∧
    ((recordTelemetryEvent (.pdf_cache_cleared c t) s now).pdfCacheEntries = 0) ∧
    ((recordTelemetryEvent (.pdf_cache_cleared c t) s now).lastCacheClearAt = some t) ∧
    (0 ≤ (applyEvents es (initialState now) now).pdfCacheEntries) ∧
    ((recordTelemetryEvent (.pdf_cached q 3 u)
        (recordTelemetryEvent (.pdf_cached p 5 t) s now) later).pdfCacheEntries = 3) := by
  refine ⟨rfl, rfl, rfl, ?_, ?_⟩
  · exact applyEvents_cacheEntries_nonneg es now (initialState now) (le_refl 0)
  · show max 0 (3 : ℚ) = 3
    norm_num

/-- C10. The `count` field of a `pdf_cache_cleared` event never influences
the resulting state: two such events agreeing on the timestamp produce
identical states from any prior state, with the gauge zeroed and
`lastCacheClearAt` set to the event timestamp. -/
theorem cache_cleared_count_irrelevant (c c₂ t : ℚ) (s : TelemetryState) (now : ℚ) :
    (recordTelemetryEvent (.pdf_cache_cleared c t) s now =
      recordTelemetryEvent (.pdf_cache_cleared c₂ t) s now) ∧
    ((recordTelemetryEvent (.pdf_cache_cleared c t) s now).pdfCacheEntries = 0) ∧
    ((recordTelemetryEvent (.pdf_cache_cleared c t) s now).lastCacheClearAt = some t) :=
  ⟨rfl, rfl, rfl⟩

/-- A run of `contract_attempt` events adds its length to the attempt
counter. -/
theorem contractAttempts_applyEvents (ps : List String) (t now : ℚ) :
    ∀ s : TelemetryState,
      (applyEvents (ps.map fun q => .contract_attempt q t) s now).contractAttempts =
        s.contractAttempts + ps.length := by
  induction ps with
  | nil => intro s; simp [applyEvents]
  | cons q ps ih =>
      intro s
      simp only [List.map_cons, applyEvents, List.foldl_cons] at *
      rw [ih]
      simp [recordTelemetryEvent]
      omega

/-- C8. All six counters are monotone non-decreasing under every
`recordTelemetryEvent` call and unchanged by `clearTelemetryErrors`; each
event kind increments exactly its matching counter by one, and a sequence
of N `contract_attempt` events adds N to `contractAttempts`. -/
theorem counters_monotone_increment (e : TelemetryEvent) (s : TelemetryState)
    (now t d : ℚ) (p : String) (dt : DocumentType) (po : Option String)
    (dto : Option DocumentType) (r : Option String) (v : Option CompileVariant)
    (ps : List String) :
    (s.contractAttempts ≤ (recordTelemetryEvent e s now).contractAttempts ∧
     s.contractSuccesses ≤ (recordTelemetryEvent e s now).contractSuccesses ∧
     s.contractFailures ≤ (recordTelemetryEvent e s now).contractFailures ∧
     s.pdfCompilations ≤ (recordTelemetryEvent e s now).pdfCompilations ∧
     s.pdfCompilationFailures ≤ (recordTelemetryEvent e s now).pdfCompilationFailures ∧
     s.pdfDownloads ≤ (recordTelemetryEvent e s now).pdfDownloads) ∧
    ((clearTelemetryErrors s now).2.contractAttempts = s.contractAttempts ∧
     (clearTelemetryErrors s now).2.contractSuccesses = s.contractSuccesses ∧
     (clearTelemetryErrors s now).2.contractFailures = s.contractFailures ∧
     (clearTelemetryErrors s now).2.pdfCompilations = s.pdfCompilations ∧
     (clearTelemetryErrors s now).2.pdfCompilationFailures = s.pdfCompilationFailures ∧
     (clearTelemetryErrors s now).2.pdfDownloads = s.pdfDownloads) ∧
    ((recordTelemetryEvent (.contract_attempt p t) s now).contractAttempts =
       s.contractAttempts + 1 ∧
     (recordTelemetryEvent (.contract_success p d t) s now).contractSuccesses =
       s.contractSuccesses + 1 ∧
     (recordTelemetryEvent (.contract_failure po r t) s now).contractFailures =
       s.contractFailures + 1 ∧
     (recordTelemetryEvent (.pdf_compiled p dt d t v) s now).pdfCompilations =
       s.pdfCompilations + 1 ∧
     (recordTelemetryEvent (.pdf_compile_failure po dto r t v) s now).pdfCompilationFailures =
       s.pdfCompilationFailures + 1 ∧
     (recordTelemetryEvent (.pdf_downloaded p dt t) s now).pdfDownloads =
       s.pdfDownloads + 1) ∧
    ((applyEvents (ps.map fun q => .contract_attempt q t) s now).contractAttempts =
      s.contractAttempts + ps.length) := by
  refine ⟨?_, ⟨rfl, rfl, rfl, rfl, rfl, rfl⟩, ⟨rfl, rfl, rfl, rfl, rfl, rfl⟩,
    contractAttempts_applyEvents ps t now s⟩
  cases e <;>
    simp_all [recordTelemetryEvent, addRecentActivity, addErrorLog]

/-! ### The contract-failure and compile-failure update rules -/

/-- Counterexample to C5 as stated: a `contract_failure` with no `property`
and no `reason` logs the message "Contract failed." — the error-log fallback
defaults the property to "Contract", not to the "Unspecified" placeholder
used for `lastContract` and `recentActivity`. -/
theorem contract_failure_fallback_cex :
    (recordTelemetryEvent (.contract_failure none none 5)
        (initialState 0) 7).recentErrors =
      [{ source := .contract, message := "Contract failed.", timestamp := 5 }] ∧
    "Contract failed." ≠ "Unspecified failed." := by
  exact ⟨rfl, by decide⟩

/-- C5 (amended). A `contract_failure` event increments `contractFailures`,
defaults a missing `property` to "Unspecified" in `lastContract` (no
duration) and in the `recentActivity` entry (whose detail is the raw
reason), and prepends to `recentErrors` a message that defaults the missing
property to "Contract": "<property>: <reason>" for a nonempty reason and
"<property> failed." otherwise — never the empty string. -/
theorem contract_failure_update (po r : Option String) (t : ℚ)
    (s : TelemetryState) (now : ℚ) (rr : String) :
    ((recordTelemetryEvent (.contract_failure po r t) s now).contractFailures =
      s.contractFailures + 1) ∧
    ((recordTelemetryEvent (.contract_failure po r t) s now).lastContract =
      some { property := po.getD "Unspecified", status := .failure,
             timestamp := t, durationMs := none }) ∧
    ((recordTelemetryEvent (.contract_failure po r t) s now).recentActivity =
      ({ kind := .contract, property := po.getD "Unspecified", status := .failure,
         timestamp := t, detail := r } :: s.recentActivity).take MAX_RECENT_ACTIVITY) ∧
    ((recordTelemetryEvent (.contract_failure po r t) s now).recentErrors =
      ({ source := .contract, message := contractFailureMessage po r,
         timestamp := t } :: s.recentErrors).take MAX_ERROR_LOG) ∧
    (contractFailureMessage po none = po.getD "Contract" ++ " failed.") ∧
    (contractFailureMessage po (some rr) =
      if rr = "" then po.getD "Contract" ++ " failed."
      else po.getD "Contract" ++ ": " ++ rr) ∧
    (0 < (contractFailureMessage po r).length) := by
  refine ⟨rfl, rfl, rfl, rfl, rfl, rfl, ?_⟩
  have h8 : (" failed." : String).length = 8 := rfl
  have h2 : (": " : String).length = 2 := rfl
  cases r with
  | none =>
      simp only [contractFailureMessage, String.length_append, h8]
      omega
  | some rr₂ =>
      by_cases hrr : rr₂ = "" <;>
        simp only [contractFailureMessage, hrr, if_pos, if_neg, ite_true, ite_false,
          String.length_append, h8, h2] <;> omega

/-- Counterexample to C6 as stated: a recompile-variant compile failure gets
the extra " (Recompile)" suffix on its error-log message, so the message is
not the claimed "<scope>: <reason>". -/
theorem compile_failure_recompile_suffix_cex :
    (recordTelemetryEvent
        (.pdf_compile_failure (some "X") none (some "boom") 1 (some .recompile))
        (initialState 0) 0).recentErrors =
      [{ source := .pdf, message := "X / Recompile: boom (Recompile)",
         timestamp := 1 }] ∧
    "X / Recompile: boom (Recompile)" ≠ "X / Recompile: boom" := by
  exact ⟨rfl, by decide⟩

/-- C6 (amended). A `pdf_compile_failure` event increments
`pdfCompilationFailures`, prepends to `recentErrors` the message built from
the scope label (the " / "-join of the nonempty property, "PDF <DOCTYPE>"
and "Recompile" when the variant is recompile, defaulting to "PDF" when all
are absent) and the reason ("<scope>: <reason>" for a nonempty reason, else
"<scope>: compile failure."), suffixed with " (Recompile)" for the
recompile variant, and prepends a compile-kind `recentActivity` entry
defaulting the property to "Unspecified". -/
theorem compile_failure_update (po : Option String) (dto : Option DocumentType)
    (r : Option String) (t : ℚ) (v : Option CompileVariant) (s : TelemetryState)
    (now : ℚ) :
    ((recordTelemetryEvent (.pdf_compile_failure po dto r t v) s now).pdfCompilationFailures =
      s.pdfCompilationFailures + 1) ∧
    ((recordTelemetryEvent (.pdf_compile_failure po dto r t v) s now).recentErrors =
      ({ source := .pdf, message := compileFailureMessage po dto r v,
         timestamp := t } :: s.recentErrors).take MAX_ERROR_LOG) ∧
    ((recordTelemetryEvent (.pdf_compile_failure po dto r t v) s now).recentActivity =
      ({ kind := .compile, property := po.getD "Unspecified", status := .failure,
         timestamp := t, docType := dto,
         detail := compileFailureActivityDetail r v,
         variant := v } :: s.recentActivity).take MAX_RECENT_ACTIVITY) ∧
    (compileFailureMessage (some "Main St") (some .investor) (some "timeout") none =
      "Main St / PDF INVESTOR: timeout") ∧
    (compileFailureMessage none none none (some .recompile) =
      "Recompile: compile failure. (Recompile)") ∧
    (compileFailureMessage none none none none = "PDF: compile failure.") ∧
    (compileFailureMessage (some "X") (some .acquisition) none none =
      "X / PDF ACQUISITION: compile failure.") :=
  ⟨rfl, rfl, rfl, rfl, rfl, rfl, rfl⟩

/-! ### Characterization of the validator and the ingestion endpoint -/

/-- The field at `key` is present and a string. -/
def StrField (v : JsonValue) (key : String) : Prop :=
  ∃ s : String, getField v key = some (.str s)

/-- The field at `key` is present and a number. -/
def NumField (v : JsonValue) (key : String) : Prop :=
  ∃ q : ℚ, getField v key = some (.num q)

/-- The field at `key` is one of the two document-type strings. -/
def DocTypeField (v : JsonValue) (key : String) : Prop :=
  getField v key = some (.str "acquisition") ∨ getField v key = some (.str "investor")

/-- The field at `key` is absent or a string. -/
def OptStrField (v : JsonValue) (key : String) : Prop :=
  getField v key = none ∨ StrField v key

/-- The field at `key` is absent or a document-type string. -/
def OptDocTypeField (v : JsonValue) (key : String) : Prop :=
  getField v key = none ∨ DocTypeField v key

/-- The per-kind shape requirement at tag `t` of the amended contract:
required fields present with the correct type, optional `property` (and
`docType` on `pdf_compile_failure`) absent or correctly typed, and no
constraint on `reason` or `variant`. -/
def KindShape (v : JsonValue) (t : String) : Prop :=
  (t = "contract_attempt" ∧ StrField v "property") ∨
  (t = "contract_success" ∧ StrField v "property" ∧ NumField v "durationMs") ∨
  (t = "contract_failure" ∧ OptStrField v "property") ∨
  (t = "pdf_compiled" ∧ StrField v "property" ∧ DocTypeField v "docType" ∧
    NumField v "durationMs") ∨
  (t = "pdf_compile_failure" ∧ OptStrField v "property" ∧
    OptDocTypeField v "docType") ∨
  (t = "pdf_cached" ∧ StrField v "property" ∧ NumField v "cacheSize") ∨
  (t = "pdf_cache_cleared" ∧ NumField v "count") ∨
  (t = "pdf_downloaded" ∧ StrField v "property" ∧ DocTypeField v "docType")

/-- The amended shape contract of the validator: an object with a string
`type` among the eight known kinds and a numeric `timestamp` satisfying the
per-kind requirement. -/
def ValidTelemetryShape (v : JsonValue) : Prop :=
  isObject v = true ∧ NumField v "timestamp" ∧
  ∃ t : String, getField v "type" = some (.str t) ∧ KindShape v t

/-- `jIsString` detects exactly the present string fields. -/
theorem jIsString_iff (o : Option JsonValue) :
    jIsString o = true ↔ ∃ s : String, o = some (.str s) := by
  cases o with
  | none => simp [jIsString]
  | some jv => cases jv <;> simp [jIsString]

/-- `jIsNumber` detects exactly the present numeric fields. -/
theorem jIsNumber_iff (o : Option JsonValue) :
    jIsNumber o = true ↔ ∃ q : ℚ, o = some (.num q) := by
  cases o with
  | none => simp [jIsNumber]
  | some jv => cases jv <;> simp [jIsNumber]

/-- `isDocumentType` detects exactly the two document-type strings. -/
theorem isDocumentType_iff (o : Option JsonValue) :
    isDocumentType o = true ↔
      (o = some (.str "acquisition") ∨ o = some (.str "investor")) := by
  cases o with
  | none => simp [isDocumentType]
  | some jv => cases jv <;> simp [isDocumentType]

/-- The switch body accepts exactly the per-kind shape requirement. -/
theorem kindCheck_iff_kindShape (v : JsonValue) (t : String) :
    kindCheck v t = true ↔ KindShape v t := by
  by_cases h1 : t = "contract_attempt"
  · subst h1
    simp [kindCheck, KindShape, jIsString_iff, StrField]
  by_cases h2 : t = "contract_success"
  · subst h2
    simp [kindCheck, KindShape, jIsString_iff, jIsNumber_iff, StrField, NumField]
  by_cases h3 : t = "contract_failure"
  · subst h3
    simp [kindCheck, KindShape, jIsString_iff, Option.isNone_iff_eq_none,
      OptStrField, StrField]
  by_cases h4 : t = "pdf_compiled"
  · subst h4
    simp [kindCheck, KindShape, jIsString_iff, jIsNumber_iff, isDocumentType_iff,
      StrField, NumField, DocTypeField, and_assoc]
  by_cases h5 : t = "pdf_compile_failure"
  · subst h5
    simp [kindCheck, KindShape, jIsString_iff, isDocumentType_iff,
      Option.isNone_iff_eq_none, OptStrField, OptDocTypeField, StrField,
      DocTypeField]
  by_cases h6 : t = "pdf_cached"
  · subst h6
    simp [kindCheck, KindShape, jIsString_iff, jIsNumber_iff, StrField, NumField]
  by_cases h7 : t = "pdf_cache_cleared"
  · subst h7
    simp [kindCheck, KindShape, jIsNumber_iff, NumField]
  by_cases h8 : t = "pdf_downloaded"
  · subst h8
    simp [kindCheck, KindShape, jIsString_iff, isDocumentType_iff, StrField,
      DocTypeField]
  simp [kindCheck, KindShape, h1, h2, h3, h4, h5, h6, h7, h8]

/-- C4 (amended). The validator accepts exactly the payloads of
`ValidTelemetryShape`: required fields are type-checked per kind, the
optional `property`/`docType` fields are rejected when present with a wrong
type, unknown kinds are rejected — and `reason`/`variant` are never
type-checked. -/
theorem isTelemetryEvent_iff_shape (v : JsonValue) :
    isTelemetryEvent v = true ↔ ValidTelemetryShape v := by
  unfold isTelemetryEvent ValidTelemetryShape
  by_cases hobj : isObject v
  · rcases hty : getField v "type" with _ | tv
    · simp [hobj, hty, jIsString, NumField]
    · cases tv with
      | str t =>
          rcases hts : getField v "timestamp" with _ | sv
          · simp [hobj, hty, hts, jIsString, jIsNumber, NumField]
          · cases sv with
            | num q =>
                simp [hobj, hty, hts, jIsString, jIsNumber, jAsString, NumField,
                  kindCheck_iff_kindShape]
            | _ => simp [hobj, hty, hts, jIsString, jIsNumber, NumField]
      | _ => simp [hobj, hty, jIsString]
  · have hobj2 : isObject v = false := by
      revert hobj
      cases isObject v <;> simp
    simp [hobj2]

/-- A `contract_failure` payload whose `reason` field is present with the
wrong type (the number 42 instead of a string). -/
def badReasonPayload : JsonValue :=
  .obj [("type", .str "contract_failure"), ("timestamp", .num 1), ("reason", .num 42)]

/-- Counterexample to C4 as stated: the source validator accepts a
`contract_failure` payload whose optional `reason` is present with the
wrong type, while the validator following the spec's words rejects it —
`reason` (and `variant`) are never type-checked by the source. -/
theorem validator_mistyped_reason_cex :
    isTelemetryEvent badReasonPayload = true ∧
    isTelemetryEventSpec badReasonPayload = false :=
  ⟨rfl, rfl⟩

/-- C9. A payload that fails the validator shape check is answered with the
client-error result and the store is returned completely unchanged: no
counter, buffer, log, gauge or `lastUpdated` mutation. -/
theorem invalid_payload_rejected (payload : JsonValue) (s : TelemetryState)
    (now : ℚ) (h : isTelemetryEvent payload = false) :
    POST payload s now = (PostResult.rejected, s) := by
  unfold POST
  rw [h]
  simp

/-- Witness for C9 at the spec's own example: a `pdf_compiled` payload
missing `docType` and `durationMs` is rejected and the initial store is
untouched. -/
theorem invalid_payload_rejected_witness :
    isTelemetryEvent (.obj [("type", .str "pdf_compiled"), ("timestamp", .num 123),
        ("property", .str "X")]) = false ∧
    POST (.obj [("type", .str "pdf_compiled"), ("timestamp", .num 123),
        ("property", .str "X")]) (initialState 0) 1 =
      (PostResult.rejected, initialState 0) :=
  ⟨rfl, invalid_payload_rejected _ (initialState 0) 1 rfl⟩

end Telemetry
